import Mathlib

/-!
Shallow embedding of the GeoSpot map component (`src/components/MapDisplay.tsx`,
first authoritative draft) in Lean 4, together with theorems settling the
specification claims about the Camera Reconciler, Gesture Listener,
Focus-Follow Controller, Marker/Popup Renderer and Lifecycle Manager.

JavaScript numbers are modelled as rationals (ℚ); JavaScript strings as lists
of characters (`Str`), so that `substring`/`length` behave like `List.take` /
`List.length`; `undefined`-able fields as `Option`; thrown exceptions as
`Except`.  JavaScript truthiness of a possibly-undefined number is
`none`/`some 0` ↦ false, everything else ↦ true, which is exactly what
`landmark.lat && landmark.lng` tests in the source.
-/

namespace GeoSpot

/-- JavaScript strings are modelled as lists of characters. -/
abbrev Str := List Char

/-- A geographical position: `{lat, lng}` or the equivalent `[lat, lng]` tuple
(the source normalises both shapes to the pair, lines 110–115). -/
structure Pos where
  lat : ℚ
  lng : ℚ
deriving DecidableEq, Repr

/-- `User` record from `src/types/index.ts`. -/
structure User where
  id : Str
  name : Str
  avatar : Str
  loc : Pos
  following : Bool
deriving DecidableEq, Repr

/-- `Landmark` record from `src/services/wikipedia` (re-exported by
`src/types/index.ts`): `lat`/`lng` are optional numbers. -/
structure Landmark where
  title : Str
  description : Str
  wikipediaUrl : Str
  lat : Option ℚ
  lng : Option ℚ
deriving DecidableEq, Repr

/-- JavaScript truthiness of a possibly-undefined number: `undefined`, `0`
(and NaN, not representable in ℚ) are falsy. -/
def truthy : Option ℚ → Bool
  | none => false
  | some x => x != 0

/-- The live Leaflet map widget's camera state (`map.getCenter()`,
`map.getZoom()`). -/
structure Widget where
  center : Pos
  zoom : ℚ
deriving DecidableEq, Repr

/-- The move commands the component can issue on the widget:
`setView(center)` — immediate, and note it carries no zoom argument — and
`flyTo(target, zoom, {duration})` — animated. -/
inductive MapCmd where
  | setView (center : Pos)
  | flyTo (target : Pos) (zoom : ℚ) (durationSec : ℚ)
deriving DecidableEq, Repr

/-- Leaflet semantics of the two move calls: `setView(center)` with no zoom
argument keeps the current zoom; `flyTo(target, zoom)` sets both. -/
def Widget.applyCmd (w : Widget) : MapCmd → Widget
  | .setView c => { w with center := c }
  | .flyTo t z _ => { center := t, zoom := z }

/-- The position tolerance of the Camera Reconciler (line 117 of the source:
`const tolerance = 0.00001`). -/
def tolerance : ℚ := 1 / 100000

/-- `Math.abs`, written out so that it evaluates by kernel reduction. -/
def jsAbs (q : ℚ) : ℚ := if q < 0 then -q else q

/-- Camera Reconciler effect body (source lines 105–129): when mounted, the
widget exists and a current center is set, compare the live center against the
target; issue `setView(currentCenter)` only when the latitude or longitude
differ by more than the tolerance.  Returns the list of widget move commands
issued by one run of the effect. -/
def reconcileCmds (isMounted : Bool) (mapRef : Option Widget)
    (currentCenter : Option Pos) : List MapCmd :=
  match isMounted, mapRef, currentCenter with
  | true, some w, some c =>
    if jsAbs (w.center.lat - c.lat) > tolerance ∨ jsAbs (w.center.lng - c.lng) > tolerance then
      [.setView c]
    else
      []
  | _, _, _ => []

/-- The spec's `DesiredCamera` data model, written from the spec's words
(§3: "DesiredCamera: {center: Position, zoom: integer}") to compare against
the source, whose props carry only a center (`MapDisplayProps.center`) and no
desired zoom. -/
structure SpecDesiredCamera where
  center : Pos
  zoom : ℚ
deriving DecidableEq, Repr

/-- The Paris camera of the spec's §8 scenario: center (48.8566, 2.3522),
zoom 13. -/
def parisCam : Widget := ⟨⟨488566/10000, 23522/10000⟩, 13⟩

/-- The London center of the spec's §8 scenario: (51.5074, -0.1278). -/
def londonCenter : Pos := ⟨515074/10000, -1278/10000⟩

/-- C1: a desired center within the 1e-5 tolerance of the live center (zoom
delta 0) causes no `setView`: the reconciler issues no command. -/
theorem C1_reconciler_within_tolerance_no_move (w : Widget) (d : SpecDesiredCamera)
    (hlat : jsAbs (w.center.lat - d.center.lat) ≤ tolerance)
    (hlng : jsAbs (w.center.lng - d.center.lng) ≤ tolerance)
    (_hzoom : d.zoom = w.zoom) :
    reconcileCmds true (some w) (some d.center) = [] := by
  simp only [reconcileCmds, not_lt.mpr hlat, not_lt.mpr hlng, or_self, if_false]

/-- The first §8 scenario as a concrete run of `C1_reconciler_within_tolerance_no_move`:
desired = live = Paris at zoom 13 → no move. -/
theorem C1_witness :
    reconcileCmds true (some parisCam) (some parisCam.center) = [] :=
  C1_reconciler_within_tolerance_no_move parisCam ⟨parisCam.center, 13⟩
    (by norm_num [parisCam, tolerance, jsAbs]) (by norm_num [parisCam, tolerance, jsAbs]) rfl

/-- C2 counterexample: with live camera Paris at zoom 13 and the spec's
desired camera London at zoom 15, the reconciler issues exactly one
`setView(center)` — but that command carries no zoom, and applying it leaves
the widget at zoom 13 ≠ 15, so the move does not target the desired camera's
zoom. -/
theorem C2_counterexample :
    reconcileCmds true (some parisCam) (some londonCenter) = [MapCmd.setView londonCenter] ∧
    (parisCam.applyCmd (MapCmd.setView londonCenter)).zoom = 13 ∧ (13 : ℚ) ≠ 15 := by
  refine ⟨?_, rfl, by norm_num⟩
  norm_num [reconcileCmds, parisCam, londonCenter, tolerance, jsAbs]

/-- C2 amended: a desired center outside the tolerance of the live center
causes exactly one immediate `setView` targeting the desired center exactly;
the command carries no zoom, so the widget's zoom is left unchanged. -/
theorem C2_reconciler_outside_tolerance_one_move (w : Widget) (c : Pos)
    (h : jsAbs (w.center.lat - c.lat) > tolerance ∨ jsAbs (w.center.lng - c.lng) > tolerance) :
    reconcileCmds true (some w) (some c) = [MapCmd.setView c] ∧
    (w.applyCmd (MapCmd.setView c)).center = c ∧
    (w.applyCmd (MapCmd.setView c)).zoom = w.zoom := by
  refine ⟨?_, rfl, rfl⟩
  simp only [reconcileCmds, if_pos h]

/-- The second §8 scenario: live = Paris, desired center = London → exactly
one immediate move to London (zoom untouched). -/
theorem C2_witness :
    reconcileCmds true (some parisCam) (some londonCenter) = [MapCmd.setView londonCenter] ∧
    (parisCam.applyCmd (MapCmd.setView londonCenter)).center = londonCenter ∧
    (parisCam.applyCmd (MapCmd.setView londonCenter)).zoom = parisCam.zoom :=
  C2_reconciler_outside_tolerance_one_move parisCam londonCenter
    (Or.inl (by norm_num [parisCam, londonCenter, tolerance, jsAbs]))

/-- Focus target resolution (source lines 134–140): a selected user's
`location`, else `[selectedLandmark.lat, selectedLandmark.lng]` when both
coordinates are truthy, else nothing. -/
def resolveFocusTarget (selUser : Option User) (selLandmark : Option Landmark) :
    Option Pos :=
  match selUser with
  | some u => some u.loc
  | none =>
    match selLandmark with
    | some lm =>
      if truthy lm.lat && truthy lm.lng then some ⟨lm.lat.getD 0, lm.lng.getD 0⟩
      else none
    | none => none

/-- Focus-Follow effect body (source lines 131–151): when mounted, the widget
exists and some entity is selected (`selectedUser || selectedLandmark`),
resolve its position; if it resolves, issue one animated
`flyTo(target, Math.max(currentZoom, 15), { duration: 0.5 })`. -/
def focusCmds (isMounted : Bool) (mapRef : Option Widget)
    (selUser : Option User) (selLandmark : Option Landmark) : List MapCmd :=
  match isMounted, mapRef with
  | true, some w =>
    if selUser.isSome || selLandmark.isSome then
      match resolveFocusTarget selUser selLandmark with
      | some t => [.flyTo t (max w.zoom 15) (mkRat 1 2)]
      | none => []
    else []
  | _, _ => []

/-- The dependency values of the focus-follow effect that React compares
between renders (`[selectedUser, selectedLandmark]`); value equality models
`Object.is` on the caller's stable entity objects. -/
structure Selection where
  selUser : Option User
  selLandmark : Option Landmark
deriving DecidableEq, Repr

/-- React re-runs an effect only when its dependency list changed from the
previous render; the first render always runs it. -/
def effectRuns : Option Selection → Selection → Bool
  | none, _ => true
  | some prev, cur => prev != cur

/-- The focus-follow moves issued across a sequence of renders with the given
successive selection states, starting from previous dependencies `prev`. -/
def focusTrace (isMounted : Bool) (mapRef : Option Widget) :
    Option Selection → List Selection → List MapCmd
  | _, [] => []
  | prev, s :: rest =>
    (if effectRuns prev s then focusCmds isMounted mapRef s.selUser s.selLandmark
     else [])
      ++ focusTrace isMounted mapRef (some s) rest

/-- One run of the focus-follow effect issues at most one command. -/
theorem focusCmds_length_le_one (im : Bool) (mr : Option Widget)
    (su : Option User) (sl : Option Landmark) :
    (focusCmds im mr su sl).length ≤ 1 := by
  unfold focusCmds
  cases im <;> cases mr <;> simp
  split
  · split <;> simp
  · simp

/-- C3: whenever the selection resolves to a position, the focus-follow
effect issues exactly one animated move to that position at zoom
`max(current live zoom, 15)`. -/
theorem C3_focus_follow_one_animated_move (w : Widget) (su : Option User)
    (sl : Option Landmark) (t : Pos)
    (h : resolveFocusTarget su sl = some t) :
    focusCmds true (some w) su sl = [MapCmd.flyTo t (max w.zoom 15) (mkRat 1 2)] := by
  cases su with
  | some u =>
    simp only [resolveFocusTarget, Option.some.injEq] at h
    simp [focusCmds, resolveFocusTarget, h]
  | none =>
    cases sl with
    | none => simp [resolveFocusTarget] at h
    | some lm => simp [focusCmds, h]

/-- The landmark of the spec's §8 focus scenario, at (51.5007, -0.1246). -/
def bigBen : Landmark :=
  { title := "Big Ben".toList
    description := "Famous clock tower.".toList
    wikipediaUrl := "https://en.wikipedia.org/wiki/Big_Ben".toList
    lat := some (mkRat 515007 10000)
    lng := some (mkRat (-1246) 10000) }

/-- A live camera at zoom 10 (below the focus floor of 15). -/
def liveAtZoom10 : Widget := ⟨⟨mkRat 5151 100, mkRat (-9) 100⟩, 10⟩

/-- The §8 focus scenario as a run of `C3_focus_follow_one_animated_move`:
selecting the landmark at (51.5007, -0.1246) with live zoom 10 issues one
animated move there at zoom 15. -/
theorem C3_witness :
    focusCmds true (some liveAtZoom10) none (some bigBen) =
      [MapCmd.flyTo ⟨mkRat 515007 10000, mkRat (-1246) 10000⟩ 15 (mkRat 1 2)] := by
  have h := C3_focus_follow_one_animated_move liveAtZoom10 none (some bigBen)
    ⟨mkRat 515007 10000, mkRat (-1246) 10000⟩ (by decide)
  rw [h]
  decide

/-- C4: reselecting the same entity on the next render does not retrigger the
animation: the trace over two consecutive renders with the same selection
equals the trace over one, and issues at most one move. -/
theorem C4_reselect_same_entity_at_most_one_move (im : Bool) (mr : Option Widget)
    (prev : Option Selection) (s : Selection) :
    focusTrace im mr prev [s, s] = focusTrace im mr prev [s] ∧
    (focusTrace im mr prev [s, s]).length ≤ 1 := by
  have h2 : effectRuns (some s) s = false := by simp [effectRuns]
  have htr : focusTrace im mr prev [s, s] = focusTrace im mr prev [s] := by
    simp [focusTrace, h2]
  refine ⟨htr, ?_⟩
  rw [htr]
  simp only [focusTrace, List.append_nil]
  split
  · exact focusCmds_length_le_one im mr s.selUser s.selLandmark
  · simp

/-- The two module-level marker icons (`userIcon` / `landmarkIcon`,
source lines 14–30). -/
inductive IconKind where
  | user
  | landmark
deriving DecidableEq, Repr

/-- A rendered user marker (source lines 170–188): keyed `user-${id}`, the
user icon, a hover label and a popup title, plus a click notification
reporting the user upward. -/
structure UserMarker where
  key : Str
  position : Pos
  icon : IconKind
  hoverLabel : Str
  popupTitle : Str
deriving DecidableEq, Repr

/-- User markers: one per user, unconditionally (source line 170). -/
def renderUserMarkers (users : List User) : List UserMarker :=
  users.map fun u =>
    { key := "user-".toList ++ u.id
      position := u.loc
      icon := .user
      hoverLabel := u.name
      popupTitle := u.name }

/-- The popup's fixed fallback text (source line 208). -/
def noDescriptionText : Str := "No description available.".toList

/-- `landmark.description ? description.substring(0, 150) +
(description.length > 150 ? '...' : '') : 'No description available.'`
(source line 208). -/
def descFallback (d : Str) : Str :=
  if d.isEmpty then noDescriptionText
  else d.take 150 ++ (if d.length > 150 then "...".toList else [])

/-- `landmarkSummaries[landmark.title] || descFallback` (source line 208):
the JavaScript `||` treats a missing key and an empty-string entry alike. -/
def popupText (summaries : Str → Option Str) (lm : Landmark) : Str :=
  match summaries lm.title with
  | some s => if s.isEmpty then descFallback lm.description else s
  | none => descFallback lm.description

/-- A rendered landmark marker (source lines 190–222): keyed
`landmark-${title}`, the landmark icon, a hover label, a popup with title,
body text and Wikipedia link, plus a click notification. -/
structure LandmarkMarker where
  key : Str
  position : Pos
  icon : IconKind
  hoverLabel : Str
  popupTitle : Str
  popupBody : Str
  linkUrl : Str
deriving DecidableEq, Repr

/-- One landmark marker (the body of the `.map` on source lines 190–222);
`landmark.lat!` / `landmark.lng!` are safe after the filter. -/
def renderLandmark (summaries : Str → Option Str) (lm : Landmark) : LandmarkMarker :=
  { key := "landmark-".toList ++ lm.title
    position := ⟨lm.lat.getD 0, lm.lng.getD 0⟩
    icon := .landmark
    hoverLabel := lm.title
    popupTitle := lm.title
    popupBody := popupText summaries lm
    linkUrl := lm.wikipediaUrl }

/-- Landmark markers: `landmarks.filter(l => l.lat && l.lng).map(...)`
(source line 190). -/
def renderLandmarkMarkers (summaries : Str → Option Str)
    (landmarks : List Landmark) : List LandmarkMarker :=
  (landmarks.filter fun lm => truthy lm.lat && truthy lm.lng).map
    (renderLandmark summaries)

/-- C5: a landmark with an undefined coordinate produces no marker, and the
rendering of the remaining landmarks is exactly what it would be without it
(the renderer is a total function, so nothing can throw or abort). -/
theorem C5_missing_position_skipped (summaries : Str → Option Str)
    (xs ys : List Landmark) (lm : Landmark)
    (h : lm.lat = none ∨ lm.lng = none) :
    renderLandmarkMarkers summaries (xs ++ lm :: ys) =
      renderLandmarkMarkers summaries (xs ++ ys) := by
  have hcond : (truthy lm.lat && truthy lm.lng) = false := by
    rcases h with h | h <;> simp [h, truthy]
  simp [renderLandmarkMarkers, List.filter_append, List.filter_cons, hcond]

/-- A landmark whose coordinates never resolved (`lat`/`lng` undefined). -/
def noPosLandmark : Landmark :=
  { title := "Atlantis".toList
    description := "A lost island.".toList
    wikipediaUrl := "https://en.wikipedia.org/wiki/Atlantis".toList
    lat := none
    lng := none }

/-- `C5_missing_position_skipped` run concretely: dropping the
position-less landmark from the input leaves the rendered markers
unchanged. -/
theorem C5_witness :
    renderLandmarkMarkers (fun _ => none) [bigBen, noPosLandmark] =
      renderLandmarkMarkers (fun _ => none) [bigBen] :=
  C5_missing_position_skipped (fun _ => none) [bigBen] [] noPosLandmark
    (Or.inl rfl)

/-- A summary cache holding an empty-string entry for `bigBen`. -/
def emptyEntrySummaries : Str → Option Str := fun t =>
  if t = "Big Ben".toList then some [] else none

/-- C6 counterexample: the cache has an entry for the landmark's identity
(the empty string), yet the popup body is the description fallback, not the
cached summary — `||` tests truthiness, not presence. -/
theorem C6_counterexample :
    emptyEntrySummaries bigBen.title = some [] ∧
    popupText emptyEntrySummaries bigBen = "Famous clock tower.".toList ∧
    "Famous clock tower.".toList ≠ ([] : Str) := by
  refine ⟨by decide, by decide, by decide⟩

/-- C6 amended: for every rendered landmark marker, the popup body is the
cached summary when the cache holds a non-empty entry for the landmark's
title; when the entry is absent or empty, it is the description — unchanged
if at most 150 characters, truncated to 150 with an ellipsis appended if
longer — and the fixed placeholder when the description is empty. -/
theorem C6_popup_body (summaries : Str → Option Str) (lm : Landmark)
    (hlat : truthy lm.lat = true) (hlng : truthy lm.lng = true) :
    ∃ m, renderLandmarkMarkers summaries [lm] = [m] ∧
      (∀ s, summaries lm.title = some s → s ≠ [] → m.popupBody = s) ∧
      ((summaries lm.title = none ∨ summaries lm.title = some []) →
        (lm.description ≠ [] → lm.description.length ≤ 150 →
          m.popupBody = lm.description) ∧
        (lm.description ≠ [] → 150 < lm.description.length →
          m.popupBody = lm.description.take 150 ++ "...".toList) ∧
        (lm.description = [] → m.popupBody = noDescriptionText)) := by
  refine ⟨renderLandmark summaries lm, ?_, ?_, ?_⟩
  · simp [renderLandmarkMarkers, List.filter_cons, hlat, hlng]
  · intro s hs hne
    simp [renderLandmark, popupText, hs, List.isEmpty_iff, hne]
  · intro hcache
    have hbody : (renderLandmark summaries lm).popupBody =
        descFallback lm.description := by
      rcases hcache with h | h <;> simp [renderLandmark, popupText, h]
    refine ⟨?_, ?_, ?_⟩
    · intro hne hle
      rw [hbody]
      simp [descFallback, List.isEmpty_iff, hne, Nat.not_lt.mpr hle,
        List.take_of_length_le hle]
    · intro hne hgt
      rw [hbody]
      simp [descFallback, List.isEmpty_iff, hne, hgt]
    · intro he
      rw [hbody]
      simp [descFallback, he]

/-- `C6_popup_body` run concretely with no cache entry: the single rendered
marker for `bigBen` shows its short description verbatim. -/
theorem C6_witness :
    ∃ m, renderLandmarkMarkers (fun _ => none) [bigBen] = [m] ∧
      m.popupBody = "Famous clock tower.".toList := by
  obtain ⟨m, hm, -, hdesc⟩ :=
    C6_popup_body (fun _ => none) bigBen (by decide) (by decide)
  refine ⟨m, hm, ?_⟩
  have := (hdesc (Or.inl rfl)).1 (by decide) (by decide)
  simpa [bigBen] using this

/-- The observable effects one `moveend` callback of `MapEvents` can have:
an `onMove(payload)` call to the parent, or a move command on the widget. -/
inductive MoveendEffect where
  | notifyMove (center : Pos)
  | widgetMove (cmd : MapCmd)
deriving DecidableEq, Repr

/-- The `moveend` handler of `MapEvents` (source lines 49–53):
`if (map) { onMove(map.getCenter()) }`. -/
def moveendHandler (map : Option Widget) : List MoveendEffect :=
  match map with
  | some w => [.notifyMove w.center]
  | none => []

/-- C7 counterexample: the `moveend` report is not a (Position, zoom) pair —
two live cameras at the same center but different zooms produce the very
same report, so no reading of the report can recover the zoom. -/
theorem C7_counterexample :
    ¬ ∃ f : List MoveendEffect → ℚ,
        ∀ w : Widget, f (moveendHandler (some w)) = w.zoom := by
  rintro ⟨f, hf⟩
  have h1 := hf ⟨⟨1, 2⟩, 10⟩
  have h2 := hf ⟨⟨1, 2⟩, 15⟩
  simp only [moveendHandler] at h1 h2
  rw [h1] at h2
  exact absurd h2 (by norm_num)

/-- C7 amended: on each `moveend` the Gesture Listener reads the live camera
and reports exactly its center upward through `onMove` (no zoom in the
payload), and it issues no move command on the widget. -/
theorem C7_gesture_listener_reports_center_only (w : Widget) :
    moveendHandler (some w) = [MoveendEffect.notifyMove w.center] ∧
    ∀ e ∈ moveendHandler (some w), ∀ cmd, e ≠ MoveendEffect.widgetMove cmd := by
  refine ⟨rfl, ?_⟩
  intro e he cmd
  simp only [moveendHandler, List.mem_singleton] at he
  simp [he]

/-- `C7_gesture_listener_reports_center_only` run concretely: the Paris
camera's `moveend` yields only the `onMove(center)` report, which is not a
widget move. -/
theorem C7_witness :
    moveendHandler (some parisCam) = [MoveendEffect.notifyMove parisCam.center] ∧
    MoveendEffect.notifyMove parisCam.center ≠
      MoveendEffect.widgetMove (MapCmd.setView londonCenter) :=
  ⟨(C7_gesture_listener_reports_center_only parisCam).1,
    (C7_gesture_listener_reports_center_only parisCam).2
      (MoveendEffect.notifyMove parisCam.center) (by simp [moveendHandler])
      (MapCmd.setView londonCenter)⟩

/-- The component's public render output (source lines 154–224): before
mounting, a Skeleton placeholder carrying no markers and no event handlers;
after mounting, the map container at its creation zoom 13 with tile layer
and the user and landmark markers. -/
inductive RenderOutput where
  | skeleton
  | mapView (center : Pos) (zoom : ℚ) (userMarkers : List UserMarker)
      (landmarkMarkers : List LandmarkMarker)
deriving DecidableEq, Repr

/-- The render function of `MapDisplayComponent` (source lines 154–224). -/
def render (isMounted : Bool) (currentCenter : Pos) (users : List User)
    (landmarks : List Landmark) (summaries : Str → Option Str) : RenderOutput :=
  if isMounted then
    .mapView currentCenter 13 (renderUserMarkers users)
      (renderLandmarkMarkers summaries landmarks)
  else
    .skeleton

/-- C8: with no widget instance, both camera effects issue no command at all
(they are total functions, so nothing can throw), and before mounting the
render output is the placeholder, which carries no markers or handlers. -/
theorem C8_widget_not_ready_noop (im : Bool) (cc : Option Pos)
    (su : Option User) (sl : Option Landmark) (c : Pos) (us : List User)
    (ls : List Landmark) (sm : Str → Option Str) :
    reconcileCmds im none cc = [] ∧
    focusCmds im none su sl = [] ∧
    render false c us ls sm = RenderOutput.skeleton := by
  refine ⟨?_, ?_, rfl⟩
  · cases im <;> rfl
  · cases im <;> rfl

/-- The unmount cleanup (source lines 88–96): read the ref; if a widget is
present call `remove()` on it — with no surrounding try/catch — then clear
the ref.  `removeImpl` models `remove()`'s behaviour (normal return or
throw); the result is the cleared ref, or the propagated exception. -/
def cleanupEffect (mapRef : Option Widget)
    (removeImpl : Widget → Except Str Unit) : Except Str (Option Widget) :=
  match mapRef with
  | some w =>
    match removeImpl w with
    | .ok _ => .ok none
    | .error e => .error e
  | none => .ok none

/-- A teardown that throws, as Leaflet's `remove()` can. -/
def throwingRemove : Widget → Except Str Unit := fun _ =>
  .error "Map container reuse error".toList

/-- C9 counterexample: when teardown throws, the cleanup propagates the
exception to its caller — there is no catch, so it does not complete with
any cleared-ref result. -/
theorem C9_counterexample :
    cleanupEffect (some parisCam) throwingRemove =
      Except.error "Map container reuse error".toList ∧
    ∀ r, cleanupEffect (some parisCam) throwingRemove ≠ Except.ok r := by
  refine ⟨rfl, ?_⟩
  intro r h
  simp [cleanupEffect, throwingRemove] at h

/-- C9 amended: a throw from widget teardown is not caught: it propagates
unchanged out of the cleanup; only when teardown returns normally is the
widget reference cleared. -/
theorem C9_teardown_error_propagates (w : Widget)
    (removeImpl : Widget → Except Str Unit) :
    (∀ e, removeImpl w = .error e →
      cleanupEffect (some w) removeImpl = .error e) ∧
    (removeImpl w = .ok () →
      cleanupEffect (some w) removeImpl = .ok none) := by
  constructor
  · intro e he
    simp [cleanupEffect, he]
  · intro hok
    simp [cleanupEffect, hok]

/-- A teardown that returns normally. -/
def okRemove : Widget → Except Str Unit := fun _ => .ok ()

/-- `C9_teardown_error_propagates` run concretely on a throwing and on a
normal teardown. -/
theorem C9_witness :
    cleanupEffect (some parisCam) throwingRemove =
      Except.error "Map container reuse error".toList ∧
    cleanupEffect (some parisCam) okRemove = Except.ok none :=
  ⟨(C9_teardown_error_propagates parisCam throwingRemove).1
      ("Map container reuse error".toList) rfl,
    (C9_teardown_error_propagates parisCam okRemove).2 rfl⟩

/-- C10: a landmark with a defined coordinate equal to 0 (equator or prime
meridian) is dropped by the marker filter — the rendered list is as if the
landmark were absent — and the focus-follow path likewise resolves no
target and issues no move for it: both paths test `lat && lng` for
truthiness, and 0 is falsy. -/
theorem C10_zero_coordinate_excluded (summaries : Str → Option Str)
    (xs ys : List Landmark) (lm : Landmark)
    (h : lm.lat = some 0 ∨ lm.lng = some 0) :
    renderLandmarkMarkers summaries (xs ++ lm :: ys) =
      renderLandmarkMarkers summaries (xs ++ ys) ∧
    resolveFocusTarget none (some lm) = none ∧
    (∀ im mr, focusCmds im mr none (some lm) = []) := by
  have hcond : (truthy lm.lat && truthy lm.lng) = false := by
    rcases h with h | h <;> simp [h, truthy]
  have hres : resolveFocusTarget none (some lm) = none := by
    simp [resolveFocusTarget, hcond]
  refine ⟨?_, hres, ?_⟩
  · simp [renderLandmarkMarkers, List.filter_append, List.filter_cons, hcond]
  · intro im mr
    cases im <;> cases mr <;> simp [focusCmds, hres]

/-- Greenwich Observatory, at longitude exactly 0: a valid position that
the truthiness tests nevertheless drop. -/
def greenwichLandmark : Landmark :=
  { title := "Royal Observatory".toList
    description := "Home of the prime meridian.".toList
    wikipediaUrl := "https://en.wikipedia.org/wiki/Royal_Observatory".toList
    lat := some (mkRat 514769 10000)
    lng := some 0 }

/-- `C10_zero_coordinate_excluded` run concretely on the Greenwich landmark
(lng = 0): no marker, no focus move. -/
theorem C10_witness :
    renderLandmarkMarkers (fun _ => none) [bigBen, greenwichLandmark] =
      renderLandmarkMarkers (fun _ => none) [bigBen] ∧
    resolveFocusTarget none (some greenwichLandmark) = none ∧
    focusCmds true (some liveAtZoom10) none (some greenwichLandmark) = [] := by
  obtain ⟨h1, h2, h3⟩ := C10_zero_coordinate_excluded (fun _ => none)
    [bigBen] [] greenwichLandmark (Or.inr rfl)
  exact ⟨h1, h2, h3 true (some liveAtZoom10)⟩

end GeoSpot
